import Mathlib

/-!
Verification of the electrum-dash Dropbox label-sync plugin

A shallow embedding, over `List Nat` byte strings, of the label-sync core in
`electrum_dash/plugins/dropbox_labels/`:

* `encryption.py` — AES-256-GCM envelope (`AESGCMEncryption`, `TrezorSuiteFormat`);
  the AES block-cipher core and the JSON codec come from external libraries and
  are abstracted as parameters, while the mode-of-operation and framing logic of
  the repository is embedded explicitly.
* `slip15.py` — SLIP-0015 account-key derivation over a concrete HMAC-SHA256.
* `auth.py` — OAuth2 PKCE parameter generation, CSRF check, token expiry.
* `dropbox_labels.py` — the pull / single-label sync flows, with the Dropbox
  object store and the wallet label store as explicit parameters.
-/

namespace DropboxLabels

/- ## Bytes and 32-bit words -/

/-- The modulus of 32-bit words, 2^32. -/
def M32 : Nat := 4294967296

/-- Addition modulo 2^32. -/
def add32 (a b : Nat) : Nat := (a + b) % M32

/-- Right rotation of a 32-bit word. -/
def rotr32 (x n : Nat) : Nat := ((x >>> n) ||| (x <<< (32 - n))) % M32

/-- Bitwise complement within 32 bits. -/
def not32 (x : Nat) : Nat := x ^^^ (M32 - 1)

/- ## SHA-256 (the `hashlib.sha256` primitive used by the plugin) -/

/-- SHA-256 `Ch` function. -/
def sha2ch (x y z : Nat) : Nat := (x &&& y) ^^^ (not32 x &&& z)

/-- SHA-256 `Maj` function. -/
def sha2maj (x y z : Nat) : Nat := (x &&& y) ^^^ (x &&& z) ^^^ (y &&& z)

/-- SHA-256 big sigma 0. -/
def bsig0 (x : Nat) : Nat := rotr32 x 2 ^^^ rotr32 x 13 ^^^ rotr32 x 22

/-- SHA-256 big sigma 1. -/
def bsig1 (x : Nat) : Nat := rotr32 x 6 ^^^ rotr32 x 11 ^^^ rotr32 x 25

/-- SHA-256 small sigma 0. -/
def ssig0 (x : Nat) : Nat := rotr32 x 7 ^^^ rotr32 x 18 ^^^ (x >>> 3)

/-- SHA-256 small sigma 1. -/
def ssig1 (x : Nat) : Nat := rotr32 x 17 ^^^ rotr32 x 19 ^^^ (x >>> 10)

/-- The 64 SHA-256 round constants. -/
def sha2K : List Nat :=
  [1116352408, 1899447441, 3049323471, 3921009573,
   961987163, 1508970993, 2453635748, 2870763221,
   3624381080, 310598401, 607225278, 1426881987,
   1925078388, 2162078206, 2614888103, 3248222580,
   3835390401, 4022224774, 264347078, 604807628,
   770255983, 1249150122, 1555081692, 1996064986,
   2554220882, 2821834349, 2952996808, 3210313671,
   3336571891, 3584528711, 113926993, 338241895,
   666307205, 773529912, 1294757372, 1396182291,
   1695183700, 1986661051, 2177026350, 2456956037,
   2730485921, 2820302411, 3259730800, 3345764771,
   3516065817, 3600352804, 4094571909, 275423344,
   430227734, 506948616, 659060556, 883997877,
   958139571, 1322822218, 1537002063, 1747873779,
   1955562222, 2024104815, 2227730452, 2361852424,
   2428436474, 2756734187, 3204031479, 3329325298]

/-- Working state of the SHA-256 compression function: registers `a` - `hh`. -/
structure Hash8 where
  a : Nat
  b : Nat
  c : Nat
  d : Nat
  e : Nat
  f : Nat
  g : Nat
  hh : Nat

/-- The SHA-256 initial hash value. -/
def sha2H0 : Hash8 :=
  ⟨1779033703, 3144134277, 1013904242, 2773480762,
   1359893119, 2600822924, 528734635, 1541459225⟩

/-- One SHA-256 round on the working registers with schedule word `w` and
round constant `k`. -/
def sha2round (st : Hash8) (wk : Nat × Nat) : Hash8 :=
  let t1 := add32 st.hh (add32 (bsig1 st.e) (add32 (sha2ch st.e st.f st.g) (add32 wk.2 wk.1)))
  let t2 := add32 (bsig0 st.a) (sha2maj st.a st.b st.c)
  ⟨add32 t1 t2, st.a, st.b, st.c, add32 st.d t1, st.e, st.f, st.g⟩

/-- Extend a 16-word message block by `n` schedule words. -/
def sha2sched (w : List Nat) : Nat → List Nat
  | 0 => w
  | n + 1 =>
    let v := sha2sched w n
    let m := v.length
    v ++ [add32 (add32 (ssig1 (v.getD (m - 2) 0)) (v.getD (m - 7) 0))
            (add32 (ssig0 (v.getD (m - 15) 0)) (v.getD (m - 16) 0))]

/-- Compress one 16-word block into the running hash state. -/
def sha2block (st : Hash8) (block : List Nat) : Hash8 :=
  let w := sha2sched block 48
  let r := List.foldl sha2round st (w.zip sha2K)
  ⟨add32 st.a r.a, add32 st.b r.b, add32 st.c r.c, add32 st.d r.d,
   add32 st.e r.e, add32 st.f r.f, add32 st.g r.g, add32 st.hh r.hh⟩

/-- Group a byte string into big-endian 32-bit words (the input length is a
multiple of 4 whenever this is used). -/
def bytesToWords : List Nat → List Nat
  | b0 :: b1 :: b2 :: b3 :: t =>
    (b0 * 16777216 + b1 * 65536 + b2 * 256 + b3) :: bytesToWords t
  | _ => []

/-- Big-endian 8-byte encoding of a 64-bit length. -/
def be64 (n : Nat) : List Nat :=
  [n >>> 56 % 256, n >>> 48 % 256, n >>> 40 % 256, n >>> 32 % 256,
   n >>> 24 % 256, n >>> 16 % 256, n >>> 8 % 256, n % 256]

/-- SHA-256 padding: append `0x80`, zeros to 56 mod 64, and the bit length. -/
def sha2pad (msg : List Nat) : List Nat :=
  let L := msg.length
  let zeros := (120 - (L + 1) % 64) % 64
  msg ++ 0x80 :: List.replicate zeros 0 ++ be64 (8 * L)

/-- Split a padded byte string into 64-byte blocks; `fuel` bounds the
recursion (structural, so that the kernel can evaluate it). -/
def toBlocksF : Nat → List Nat → List (List Nat)
  | 0, _ => []
  | _, [] => []
  | fuel + 1, x :: t => ((x :: t).take 64) :: toBlocksF fuel ((x :: t).drop 64)

/-- Big-endian bytes of one 32-bit word. -/
def wordBytes (w : Nat) : List Nat :=
  [w >>> 24 % 256, w >>> 16 % 256, w >>> 8 % 256, w % 256]

/-- SHA-256 of a byte string, as a 32-byte digest. Embeds the external
`hashlib.sha256` primitive called by `slip15.py` and `auth.py`. -/
def sha256 (msg : List Nat) : List Nat :=
  let padded := sha2pad msg
  let st := List.foldl sha2block sha2H0 ((toBlocksF padded.length padded).map bytesToWords)
  [st.a, st.b, st.c, st.d, st.e, st.f, st.g, st.hh].flatMap wordBytes

/-- The SHA-256 digest always has 32 bytes. -/
theorem sha256_length (msg : List Nat) : (sha256 msg).length = 32 := by
  simp [sha256, wordBytes]

/-- Every byte of a SHA-256 digest is below 256. -/
theorem sha256_bytes_lt (msg : List Nat) : ∀ b ∈ sha256 msg, b < 256 := by
  intro b hb
  simp only [sha256, List.mem_flatMap, List.mem_cons, List.not_mem_nil, or_false] at hb
  obtain ⟨w, hw, hbw⟩ := hb
  have : ∀ x, b ∈ wordBytes x → b < 256 := by
    intro x hx
    simp only [wordBytes, List.mem_cons, List.not_mem_nil, or_false] at hx
    rcases hx with h | h | h | h <;> subst h <;> exact Nat.mod_lt _ (by norm_num)
  exact this w hbw

/- ## HMAC-SHA256 (the `hmac.new(key, msg, hashlib.sha256)` primitive) -/

/-- HMAC-SHA256 with a 64-byte block size, as computed by Python's `hmac`
module with `hashlib.sha256`. -/
def hmacSHA256 (key msg : List Nat) : List Nat :=
  let k0 := if 64 < key.length then sha256 key else key
  let k1 := k0 ++ List.replicate (64 - k0.length) 0
  let ipad := k1.map (fun b => b ^^^ 0x36)
  let opad := k1.map (fun b => b ^^^ 0x5c)
  sha256 (opad ++ sha256 (ipad ++ msg))

/-- An HMAC-SHA256 tag always has 32 bytes. -/
theorem hmacSHA256_length (key msg : List Nat) : (hmacSHA256 key msg).length = 32 :=
  sha256_length _

/-- Every byte of an HMAC-SHA256 tag is below 256. -/
theorem hmacSHA256_bytes_lt (key msg : List Nat) : ∀ b ∈ hmacSHA256 key msg, b < 256 :=
  sha256_bytes_lt _

/- ## UTF-8 encoding (Python's `str.encode('utf-8')`) -/

/-- UTF-8 bytes of one code point. -/
def utf8Char (c : Char) : List Nat :=
  let n := c.toNat
  if n < 128 then [n]
  else if n < 2048 then [192 + n / 64, 128 + n % 64]
  else if n < 65536 then [224 + n / 4096, 128 + n / 64 % 64, 128 + n % 64]
  else [240 + n / 262144, 128 + n / 4096 % 64, 128 + n / 64 % 64, 128 + n % 64]

/-- UTF-8 encoding of a character list. -/
def utf8Chars (s : List Char) : List Nat := s.flatMap utf8Char

/-- UTF-8 encoding of a string, as Python's `str.encode('utf-8')`. -/
def utf8Str (s : String) : List Nat := utf8Chars s.data

/- ## base64url (Python's `base64.urlsafe_b64encode`) -/

/-- The urlsafe base64 alphabet: `A`-`Z`, `a`-`z`, `0`-`9`, `-`, `_`. -/
def b64alphabet : List Char :=
  ['A', 'B', 'C', 'D', 'E', 'F', 'G', 'H', 'I', 'J', 'K', 'L', 'M',
   'N', 'O', 'P', 'Q', 'R', 'S', 'T', 'U', 'V', 'W', 'X', 'Y', 'Z',
   'a', 'b', 'c', 'd', 'e', 'f', 'g', 'h', 'i', 'j', 'k', 'l', 'm',
   'n', 'o', 'p', 'q', 'r', 's', 't', 'u', 'v', 'w', 'x', 'y', 'z',
   '0', '1', '2', '3', '4', '5', '6', '7', '8', '9', '-', '_']

/-- The urlsafe base64 character at index `i` (indices are below 64 in use). -/
def b64char (i : Nat) : Char := b64alphabet.getD i 'A'

/-- Urlsafe base64 encoding with `=` padding, three input bytes per four
output characters, as `base64.urlsafe_b64encode`. -/
def b64encode : List Nat → List Char
  | [] => []
  | [b1] => [b64char (b1 / 4), b64char (b1 % 4 * 16), '=', '=']
  | [b1, b2] => [b64char (b1 / 4), b64char (b1 % 4 * 16 + b2 / 16), b64char (b2 % 16 * 4), '=']
  | b1 :: b2 :: b3 :: rest =>
    b64char (b1 / 4) :: b64char (b1 % 4 * 16 + b2 / 16) ::
      b64char (b2 % 16 * 4 + b3 / 64) :: b64char (b3 % 64) :: b64encode rest

/-- Python's `str.rstrip('=')`: drop the maximal trailing run of `=`. -/
def rstripEq (l : List Char) : List Char :=
  (l.reverse.dropWhile (fun c => c = '=')).reverse

/-- Closed form of base64url encoding with the padding already stripped. -/
def b64encodeNP : List Nat → List Char
  | [] => []
  | [b1] => [b64char (b1 / 4), b64char (b1 % 4 * 16)]
  | [b1, b2] => [b64char (b1 / 4), b64char (b1 % 4 * 16 + b2 / 16), b64char (b2 % 16 * 4)]
  | b1 :: b2 :: b3 :: rest =>
    b64char (b1 / 4) :: b64char (b1 % 4 * 16 + b2 / 16) ::
      b64char (b2 % 16 * 4 + b3 / 64) :: b64char (b3 % 64) :: b64encodeNP rest

/-- Every emitted base64 character is in the urlsafe alphabet. -/
theorem b64char_mem (i : Nat) : b64char i ∈ b64alphabet := by
  unfold b64char List.getD
  cases h : b64alphabet.get? i with
  | none => simp [h, b64alphabet]
  | some c => simpa [h] using List.get?_mem h

/-- No base64 character is the padding character. -/
theorem b64char_ne_pad (i : Nat) : b64char i ≠ '=' := by
  intro h
  have := b64char_mem i
  rw [h] at this
  revert this
  decide

/-- The function `dropWhile` distributes over append when the second part starts with an
element failing the predicate. -/
theorem dropWhile_append_of_head (p : Char → Bool) (l : List Char) (c : Char) (l' : List Char)
    (hc : ¬ p c) : (l ++ c :: l').dropWhile p = l.dropWhile p ++ c :: l' := by
  induction l with
  | nil => simp [List.dropWhile, hc]
  | cons a t ih =>
    by_cases hpa : p a
    · simp [List.dropWhile, hpa, ih]
    · simp [List.dropWhile, hpa]

/-- Stripping padding commutes with a leading four-character base64 group. -/
theorem rstripEq_cons4 (c1 c2 c3 c4 : Char) (m : List Char) (h4 : c4 ≠ '=') :
    rstripEq (c1 :: c2 :: c3 :: c4 :: m) = c1 :: c2 :: c3 :: c4 :: rstripEq m := by
  unfold rstripEq
  have hrev : (c1 :: c2 :: c3 :: c4 :: m).reverse = m.reverse ++ c4 :: [c3, c2, c1] := by
    simp
  rw [hrev, dropWhile_append_of_head _ _ _ _ (by simp [h4])]
  simp

/-- Stripping the `=` padding from the padded base64url encoding yields the
closed-form unpadded encoding. -/
theorem rstripEq_b64encode (bs : List Nat) : rstripEq (b64encode bs) = b64encodeNP bs := by
  induction bs using b64encode.induct with
  | case1 => simp [b64encode, b64encodeNP, rstripEq]
  | case2 b1 =>
    simp only [b64encode, b64encodeNP, rstripEq, List.reverse_cons, List.reverse_nil]
    simp [List.dropWhile, b64char_ne_pad]
  | case3 b1 b2 =>
    simp only [b64encode, b64encodeNP, rstripEq, List.reverse_cons, List.reverse_nil]
    simp [List.dropWhile, b64char_ne_pad]
  | case4 b1 b2 b3 rest ih =>
    rw [b64encode, b64encodeNP, rstripEq_cons4 _ _ _ _ _ (b64char_ne_pad _), ih]

/-- Length of the unpadded base64url encoding of `n` bytes: `(4n + 2) / 3`. -/
theorem b64encodeNP_length (bs : List Nat) :
    (b64encodeNP bs).length = (4 * bs.length + 2) / 3 := by
  induction bs using b64encodeNP.induct with
  | case1 => simp [b64encodeNP]
  | case2 b1 => simp [b64encodeNP]
  | case3 b1 b2 => simp [b64encodeNP]
  | case4 b1 b2 b3 rest ih =>
    simp only [b64encodeNP, List.length_cons, ih]
    omega

/-- Every character of the unpadded base64url encoding is in the urlsafe
alphabet. -/
theorem b64encodeNP_mem (bs : List Nat) : ∀ c ∈ b64encodeNP bs, c ∈ b64alphabet := by
  induction bs using b64encodeNP.induct with
  | case1 => simp [b64encodeNP]
  | case2 b1 => simp [b64encodeNP]; exact ⟨b64char_mem _, b64char_mem _⟩
  | case3 b1 b2 =>
    simp [b64encodeNP]
    exact ⟨b64char_mem _, b64char_mem _, b64char_mem _⟩
  | case4 b1 b2 b3 rest ih =>
    intro c hc
    simp only [b64encodeNP, List.mem_cons] at hc
    rcases hc with h | h | h | h | h
    · exact h ▸ b64char_mem _
    · exact h ▸ b64char_mem _
    · exact h ▸ b64char_mem _
    · exact h ▸ b64char_mem _
    · exact ih c h

/- ## OAuth2 PKCE parameters (`auth.py`, `DropboxOAuth2.generate_pkce_params`) -/

/-- Embeds `DropboxOAuth2.generate_pkce_params` from `auth.py`: the code verifier is
the base64url encoding, with `=` stripped, of the 32 random bytes supplied by
`secrets.token_bytes(32)` (passed here explicitly); the code challenge is the
stripped base64url encoding of the SHA-256 digest of the UTF-8 verifier. -/
def generate_pkce_params (randomBytes : List Nat) : List Char × List Char :=
  (rstripEq (b64encode randomBytes),
   rstripEq (b64encode (sha256 (utf8Chars (rstripEq (b64encode randomBytes))))))

/-- No character of the urlsafe alphabet is `+`, `/` or `=`. -/
theorem b64alphabet_no_reserved :
    ∀ c ∈ b64alphabet, c ≠ '+' ∧ c ≠ '/' ∧ c ≠ '=' := by decide

/- ## AES-256-GCM model (`encryption.py`, `AESGCMEncryption`) -/

/-- Abstraction of the AES-256 core inside the external `cryptography`
library's GCM mode: `keystream key nonce i` is the `i`-th byte of the CTR
keystream, and `tagOf key nonce aad ct` the authentication tag computed over
the associated data and ciphertext. `encryption.py` treats both as opaque;
everything the repository itself does with them is embedded below. -/
structure BlockCipherModel where
  keystream : List Nat → List Nat → Nat → Nat
  tagOf : List Nat → List Nat → Option (List Nat) → List Nat → List Nat

/-- Errors raised by `AESGCMEncryption`: the key-length `ValueError` and the
tag-verification failure (`InvalidTag`). -/
inductive CryptoError where
  | invalidKeyLength
  | authenticationFailure
deriving DecidableEq

/-- Constant `AESGCMEncryption.KEY_SIZE`. -/
def KEY_SIZE : Nat := 32

/-- Constant `AESGCMEncryption.NONCE_SIZE`. -/
def NONCE_SIZE : Nat := 12

/-- Constant `AESGCMEncryption.TAG_SIZE`. -/
def TAG_SIZE : Nat := 16

/-- CTR-mode byte stream: XOR the data with the keystream from index `i`. -/
def ctrXor (ks : Nat → Nat) : Nat → List Nat → List Nat
  | _, [] => []
  | i, b :: bs => (b ^^^ ks i) :: ctrXor ks (i + 1) bs

/-- Embeds `AESGCMEncryption.encrypt`: validate the key length, encrypt in CTR mode
under the fresh `nonce` (passed explicitly in place of `os.urandom`), and
return `(ciphertext, nonce, tag)`. -/
def encrypt (C : BlockCipherModel) (key plaintext : List Nat)
    (associated_data : Option (List Nat)) (nonce : List Nat) :
    Except CryptoError (List Nat × List Nat × List Nat) :=
  if key.length ≠ KEY_SIZE then .error .invalidKeyLength
  else
    let ciphertext := ctrXor (C.keystream key nonce) 0 plaintext
    .ok (ciphertext, nonce, C.tagOf key nonce associated_data ciphertext)

/-- Embeds `AESGCMEncryption.decrypt`: validate the key length, recompute the tag
over the ciphertext and compare it with the presented tag (the finalize step
of the library), and return the CTR-decrypted plaintext on success. -/
def decrypt (C : BlockCipherModel) (key ciphertext nonce tag : List Nat)
    (associated_data : Option (List Nat)) : Except CryptoError (List Nat) :=
  if key.length ≠ KEY_SIZE then .error .invalidKeyLength
  else if C.tagOf key nonce associated_data ciphertext ≠ tag then .error .authenticationFailure
  else .ok (ctrXor (C.keystream key nonce) 0 ciphertext)

/-- XORing twice with the same keystream gives back the data. -/
theorem ctrXor_ctrXor (ks : Nat → Nat) (i : Nat) (l : List Nat) :
    ctrXor ks i (ctrXor ks i l) = l := by
  induction l generalizing i with
  | nil => rfl
  | cons b bs ih =>
    simp only [ctrXor, ih, List.cons.injEq, and_true]
    rw [Nat.xor_assoc, Nat.xor_self, Nat.xor_zero]

/- ## Trezor Suite envelope format (`encryption.py`, `TrezorSuiteFormat`) -/

/-- The decoded shape of the plaintext JSON object
`{"version": ..., "labels": {...}}`: an optional numeric `version` field (as
read by `labels_data.get('version')`) and the `labels` mapping (as read by
`labels_data.get('labels', {})`, hence defaulted when absent). -/
structure JsonPayload where
  version : Option Int
  labels : List (String × String)
deriving DecidableEq

/-- Abstraction of Python's `json` module as used by `TrezorSuiteFormat`:
`enc` is `json.dumps` of the payload object, `dec` is `json.loads` followed by
the `.get` accessors, `none` when parsing fails. -/
structure LabelsJsonCodec where
  enc : JsonPayload → List Nat
  dec : List Nat → Option JsonPayload

/-- Constant `TrezorSuiteFormat.VERSION`. -/
def VERSION : Int := 1

/-- Failures of `TrezorSuiteFormat.unpack_labels`: the truncation
`ValueError`, a decryption failure, a JSON parse failure, and the
unsupported-version `ValueError`. -/
inductive UnpackError where
  | tooShort
  | cryptoFailure (e : CryptoError)
  | jsonFailure
  | unsupportedVersion
deriving DecidableEq

/-- Embeds `TrezorSuiteFormat.pack_labels`: serialize `{'version': VERSION,
'labels': labels}`, encrypt it, and frame as `nonce || ciphertext || tag`. -/
def pack_labels (codec : LabelsJsonCodec) (C : BlockCipherModel)
    (labels : List (String × String)) (encryption_key nonce : List Nat) :
    Except CryptoError (List Nat) :=
  let plaintext := codec.enc ⟨some VERSION, labels⟩
  match encrypt C encryption_key plaintext none nonce with
  | .error e => .error e
  | .ok (ciphertext, n, tag) => .ok (n ++ ciphertext ++ tag)

/-- Embeds `TrezorSuiteFormat.unpack_labels`: reject envelopes shorter than
`NONCE_SIZE + TAG_SIZE`, split `nonce / ciphertext / tag` by position,
decrypt, parse the JSON, reject a `version` field different from `VERSION`,
and return the `labels` mapping. -/
def unpack_labels (codec : LabelsJsonCodec) (C : BlockCipherModel)
    (data encryption_key : List Nat) : Except UnpackError (List (String × String)) :=
  if data.length < NONCE_SIZE + TAG_SIZE then .error .tooShort
  else
    let nonce := data.take NONCE_SIZE
    let tag := data.drop (data.length - TAG_SIZE)
    let ciphertext := (data.drop NONCE_SIZE).take (data.length - (NONCE_SIZE + TAG_SIZE))
    match decrypt C encryption_key ciphertext nonce tag none with
    | .error e => .error (.cryptoFailure e)
    | .ok plaintext =>
      match codec.dec plaintext with
      | none => .error .jsonFailure
      | some payload =>
        if payload.version ≠ some VERSION then .error .unsupportedVersion
        else .ok payload.labels

/- ## SLIP-0015 account-key derivation (`slip15.py`) -/

/-- Embeds the `SLIP15Purpose` enum. -/
inductive SLIP15Purpose where
  | LABELS
deriving DecidableEq

/-- Embeds the `.value` of a `SLIP15Purpose` member. -/
def SLIP15Purpose.value : SLIP15Purpose → String
  | .LABELS => "Labels"

/-- Embeds `SLIP15._derive_key`: HMAC-SHA256 of the UTF-8 message
`"{purpose}/{account_index}/{key_type}"` under the master key. -/
def _derive_key (master_key : List Nat) (purpose : String)
    (account_index : Nat) (key_type : String) : List Nat :=
  let message := utf8Str (purpose ++ "/" ++ toString account_index ++ "/" ++ key_type)
  hmacSHA256 master_key message

/-- Embeds `SLIP15.derive_account_key`: the pair of the `Encryption` and `Filename`
derived keys for one account. -/
def derive_account_key (master_key : List Nat) (purpose : SLIP15Purpose)
    (account_index : Nat) : List Nat × List Nat :=
  (_derive_key master_key purpose.value account_index "Encryption",
   _derive_key master_key purpose.value account_index "Filename")

/- ## OAuth2 token operations (`auth.py`) -/

/-- The token endpoint's reply as `exchange_code_for_token` consumes it:
HTTP status, response body text, and the optional `expires_in` field of the
JSON body. -/
structure HttpResponse where
  status : Nat
  text : String
  expires_in : Option Int
deriving DecidableEq

/-- Token data as held by the plugin: the provider's `expires_in` and the
locally computed `expires_at` stamp. -/
structure TokenData where
  expires_in : Option Int
  expires_at : Option Int
deriving DecidableEq

/-- Failures of `exchange_code_for_token`: the CSRF state mismatch and a
non-(200) reply from the token endpoint. -/
inductive AuthError where
  | csrfMismatch
  | tokenExchangeFailed (body : String)
deriving DecidableEq

/-- Embeds `DropboxOAuth2.exchange_code_for_token`. The instance attributes
(`app_key`, `app_secret`, `code_verifier`, the flow's `state`) and the
endpoint's reply are explicit parameters; the second component of the result
collects the form bodies posted to the token endpoint, in order. The CSRF
check precedes the construction of the request and the `session.post`. -/
def exchange_code_for_token (app_key : String) (app_secret : Option String)
    (redirect_uri : String) (code_verifier : Option String) (flow_state : Option String)
    (code state : String) (response : HttpResponse) (now : Int) :
    Except AuthError TokenData × List (List (String × Option String)) :=
  if some state ≠ flow_state then (.error .csrfMismatch, [])
  else
    let data := [("code", some code), ("grant_type", some "authorization_code"),
                 ("client_id", some app_key), ("redirect_uri", some redirect_uri),
                 ("code_verifier", code_verifier)]
    let data := match app_secret with
      | some s => if s ≠ "" then data ++ [("client_secret", some s)] else data
      | none => data
    if response.status ≠ 200 then (.error (.tokenExchangeFailed response.text), [data])
    else
      (.ok { expires_in := response.expires_in,
             expires_at := response.expires_in.map (fun e => now + e) }, [data])

/-- Embeds `DropboxOAuth2.is_token_expired`: true when fewer than 300 seconds remain
before `expires_at` (defaulted to 0 when absent), `now` standing for
`time.time()`. -/
def is_token_expired (now : Int) (token_data : TokenData) : Bool :=
  let expires_at := token_data.expires_at.getD 0
  now > expires_at - 300

/- ## Pull and single-label sync (`dropbox_labels.py`) -/

/-- Outcome of the `dbx.files_download` call: the file's bytes, the
`ApiError` whose `.error` is a path `GetMetadataError` (the file does not
exist), or any other `ApiError`. -/
inductive DownloadResult where
  | ok (content : List Nat)
  | apiErrorNotFoundPath
  | apiErrorOther (msg : String)
deriving DecidableEq

/-- The wallet- and provider-side context a pull runs in: the plugin's
authentication state, `DROPBOX_AVAILABLE`, the download outcome at the
target path, the wallet's label store (`wallet.get_label`), and the
encryption key chosen for this wallet. -/
structure PullEnv where
  authenticated : Bool
  dropboxAvailable : Bool
  download : DownloadResult
  localLabel : String → Option String
  encryptionKey : List Nat

/-- Failures `pull_labels` propagates to its caller. -/
inductive PullError where
  | notAuthenticated
  | dropboxUnavailable
  | apiError (msg : String)
  | unpackFailure (e : UnpackError)
deriving DecidableEq

/-- Python truthiness of a label-store lookup: `None` and the empty string
are falsy. -/
def labelTruthy : Option String → Bool
  | none => false
  | some s => s ≠ ""

/-- Embeds `DropboxLabelsPlugin.pull_labels`: check authentication and package
availability, download the wallet's file, decrypt and unpack it, write each
downloaded label into the wallet store when `force` is set or the local label
is falsy, and return the downloaded set. A path-not-found `ApiError` yields
the empty set instead of an error. The second component lists the
`wallet._set_label` writes in order. -/
def pull_labels (codec : LabelsJsonCodec) (C : BlockCipherModel)
    (env : PullEnv) (force : Bool) :
    Except PullError (List (String × String)) × List (String × String) :=
  if ¬ env.authenticated then (.error .notAuthenticated, [])
  else if ¬ env.dropboxAvailable then (.error .dropboxUnavailable, [])
  else
    match env.download with
    | .apiErrorNotFoundPath => (.ok [], [])
    | .apiErrorOther m => (.error (.apiError m), [])
    | .ok encrypted_data =>
      match unpack_labels codec C encrypted_data env.encryptionKey with
      | .error e => (.error (.unpackFailure e), [])
      | .ok labels =>
        (.ok labels, labels.filter (fun kv => force || ! labelTruthy (env.localLabel kv.1)))

/-- Replay a list of `_set_label` writes on top of a label store. -/
def applyWrites (store : String → Option String) :
    List (String × String) → String → Option String
  | [], k => store k
  | (k', v) :: rest, k => applyWrites (fun x => if x = k' then some v else store x) rest k

/-- Python's `labels[item] = label` on a duplicate-free association list:
replace the entry in place when the key exists, append otherwise. -/
def assocSet (labels : List (String × String)) (item lbl : String) :
    List (String × String) :=
  if labels.any (fun kv => kv.1 = item)
  then labels.map (fun kv => if kv.1 = item then (item, lbl) else kv)
  else labels ++ [(item, lbl)]

/-- Python's `labels.pop(item, None)`: drop the entry with the given key. -/
def assocErase (labels : List (String × String)) (item : String) :
    List (String × String) :=
  labels.filter (fun kv => kv.1 ≠ item)

/-- Embeds `DropboxLabelsPlugin.sync_label`: return silently when unauthenticated;
otherwise download the current remote set via `pull_labels(force=False)`,
upsert the changed key when the new label is truthy or pop it when falsy,
re-encrypt the whole set with `pack_labels`, and upload the envelope. Any
exception out of the pull or the pack is swallowed by the surrounding
`try/except`, leaving nothing uploaded. The first component lists the bodies
passed to `dbx.files_upload`, in order; the second the `_set_label` writes
performed by the inner pull. -/
def sync_label (codec : LabelsJsonCodec) (C : BlockCipherModel)
    (env : PullEnv) (item label : String) (nonce : List Nat) :
    List (List Nat) × List (String × String) :=
  if ¬ env.authenticated then ([], [])
  else
    match pull_labels codec C env false with
    | (.error _, w) => ([], w)
    | (.ok labels, w) =>
      let updated := if label ≠ "" then assocSet labels item label
                     else assocErase labels item
      match pack_labels codec C updated env.encryptionKey nonce with
      | .error _ => ([], w)
      | .ok encrypted_data => ([encrypted_data], w)

/-- Decidable equality for `Except`, used to evaluate the embedded fallible
operations on closed inputs. -/
instance {ε α : Type} [DecidableEq ε] [DecidableEq α] : DecidableEq (Except ε α) := fun x y =>
  match x, y with
  | .ok a, .ok b =>
    if h : a = b then isTrue (by rw [h]) else isFalse (fun hc => h (Except.ok.inj hc))
  | .error e, .error f =>
    if h : e = f then isTrue (by rw [h]) else isFalse (fun hc => h (Except.error.inj hc))
  | .ok _, .error _ => isFalse (fun hc => Except.noConfusion hc)
  | .error _, .ok _ => isFalse (fun hc => Except.noConfusion hc)

/- ## Concrete fixtures used by witnesses and counterexamples -/

/-- A concrete `BlockCipherModel` instance used to evaluate the embedded
functions on closed inputs. -/
def witnessCipher : BlockCipherModel :=
  ⟨fun _ _ i => i % 256,
   fun key nonce _ ct => List.replicate 16 ((key.length + nonce.length + ct.length) % 256)⟩

/-- A concrete 32-byte key. -/
def wKey : List Nat := List.replicate 32 0

/-- A concrete 12-byte nonce. -/
def wNonce : List Nat := List.replicate 12 0

/-- A 28-byte envelope whose tag agrees with `witnessCipher` under `wKey`. -/
def wData : List Nat := List.replicate 12 0 ++ List.replicate 16 44

/-- A concrete local label store: `a ↦ "1"`, `b ↦ "2"`. -/
def wLocal : String → Option String :=
  fun k => if k = "a" then some "1" else if k = "b" then some "2" else none

/-- A concrete JSON codec whose decoder yields the remote set
`{a: "9", c: "3"}` at the supported version. -/
def wCodecRemote : LabelsJsonCodec :=
  ⟨fun _ => [], fun _ => some ⟨some 1, [("a", "9"), ("c", "3")]⟩⟩

/-- A concrete JSON codec whose decoder declares version 2. -/
def wCodecV2 : LabelsJsonCodec := ⟨fun _ => [], fun _ => some ⟨some 2, []⟩⟩

/-- A pull context with the remote envelope `wData` present. -/
def wEnv : PullEnv := ⟨true, true, .ok wData, wLocal, wKey⟩

/-- A pull context where the remote file does not exist. -/
def wEnvNotFound : PullEnv := ⟨true, true, .apiErrorNotFoundPath, fun _ => none, wKey⟩

/- ## Helper lemmas about write replay -/

/-- Replaying writes that never touch `k` leaves the store unchanged at `k`. -/
theorem applyWrites_not_mem (store : String → Option String)
    (W : List (String × String)) (k : String) (h : ∀ kv ∈ W, kv.1 ≠ k) :
    applyWrites store W k = store k := by
  induction W generalizing store with
  | nil => rfl
  | cons kv rest ih =>
    obtain ⟨k', v⟩ := kv
    have hk' : k' ≠ k := h (k', v) (List.mem_cons_self _ _)
    rw [applyWrites, ih _ (fun kv hkv => h kv (List.mem_cons_of_mem _ hkv))]
    exact if_neg (Ne.symm hk')

/-- With duplicate-free keys, replaying the writes sets `k` to its unique
written value. -/
theorem applyWrites_lookup (store : String → Option String)
    (W : List (String × String)) (k v : String)
    (hnd : (W.map Prod.fst).Nodup) (hmem : (k, v) ∈ W) :
    applyWrites store W k = some v := by
  induction W generalizing store with
  | nil => cases hmem
  | cons kv rest ih =>
    obtain ⟨k', v'⟩ := kv
    rw [List.map_cons, List.nodup_cons] at hnd
    rcases List.mem_cons.mp hmem with heq | hrest
    · injection heq with hk hv
      subst hk
      subst hv
      have hnone : ∀ kv ∈ rest, kv.1 ≠ k := by
        intro kv hkv hkk
        exact hnd.1 (List.mem_map.mpr ⟨kv, hkv, hkk⟩)
      rw [applyWrites, applyWrites_not_mem _ _ _ hnone]
      exact if_pos rfl
    · have hk' : k ≠ k' := by
        intro hkk
        exact hnd.1 (List.mem_map.mpr ⟨(k, v), hrest, hkk⟩)
      rw [applyWrites]
      exact ih _ hnd.2 hrest

/-- A successful pull writes exactly the downloaded entries passing the
`force or falsy-local` test, in order. -/
theorem pull_ok_writes (codec : LabelsJsonCodec) (C : BlockCipherModel)
    (env : PullEnv) (force : Bool) (labels : List (String × String))
    (W : List (String × String))
    (h : pull_labels codec C env force = (.ok labels, W)) :
    W = labels.filter (fun kv => force || ! labelTruthy (env.localLabel kv.1)) := by
  unfold pull_labels at h
  split at h
  · simp at h
  · split at h
    · simp at h
    · split at h
      · simp only [Prod.mk.injEq, Except.ok.injEq] at h
        obtain ⟨rfl, rfl⟩ := h
        rfl
      · simp at h
      · rename_i encrypted_data
        split at h
        · simp at h
        · simp only [Prod.mk.injEq, Except.ok.injEq] at h
          obtain ⟨rfl, rfl⟩ := h
          rfl

/- ## C1: AES-GCM round trip -/

/-- C1: for every byte string `p` and every 32-byte key `k`, decrypting the
output of `encrypt` with the same key returns `p`:
`decrypt(k, ciphertext, nonce, tag) = p` where
`(ciphertext, nonce, tag) = encrypt(k, p)`. Stated over any block-cipher
core, with the nonce that `os.urandom` would supply passed explicitly. -/
theorem C1_encrypt_decrypt_roundtrip (C : BlockCipherModel) (key p nonce : List Nat)
    (hk : key.length = 32) :
    ∃ ct tag, encrypt C key p none nonce = .ok (ct, nonce, tag) ∧
      decrypt C key ct nonce tag none = .ok p := by
  refine ⟨ctrXor (C.keystream key nonce) 0 p,
    C.tagOf key nonce none (ctrXor (C.keystream key nonce) 0 p), ?_, ?_⟩
  · simp [encrypt, hk, KEY_SIZE]
  · simp [decrypt, hk, KEY_SIZE, ctrXor_ctrXor]

/-- Witness for C1 at a concrete key, plaintext and nonce. -/
theorem C1_encrypt_decrypt_roundtrip_witness :
    (List.replicate 32 7 : List Nat).length = 32 ∧
    (∃ ct tag, encrypt witnessCipher (List.replicate 32 7) [1, 2, 3] none wNonce
        = .ok (ct, wNonce, tag) ∧
      decrypt witnessCipher (List.replicate 32 7) ct wNonce tag none = .ok [1, 2, 3]) :=
  ⟨by decide, C1_encrypt_decrypt_roundtrip witnessCipher _ _ _ (by decide)⟩

/- ## C3: CSRF check precedes the token request -/

/-- C3: for every code and every state differing from the flow's stored
state, `exchange_code_for_token` fails with the CSRF mismatch error and posts
nothing to the token endpoint. -/
theorem C3_csrf_mismatch_no_request (app_key : String) (app_secret : Option String)
    (redirect_uri : String) (code_verifier flow_state : Option String)
    (code state : String) (response : HttpResponse) (now : Int)
    (h : some state ≠ flow_state) :
    exchange_code_for_token app_key app_secret redirect_uri code_verifier flow_state
      code state response now = (.error .csrfMismatch, []) := by
  simp [exchange_code_for_token, h]

/-- Witness for C3: a wrong state against a concrete flow. -/
theorem C3_csrf_mismatch_no_request_witness :
    (some "wrong-state" ≠ some "flow-state") ∧
    exchange_code_for_token "app" none "http://localhost:43682/dropbox-auth"
      (some "ver") (some "flow-state") "code" "wrong-state" ⟨200, "", some 14400⟩ 1000
      = (.error .csrfMismatch, []) :=
  ⟨by decide, C3_csrf_mismatch_no_request _ _ _ _ _ _ _ _ _ (by decide)⟩

/- ## C6: pull of a missing remote file -/

/-- C6: when the object store reports that the remote labels file does not
exist, `pull_labels` returns the empty label set without error and writes
nothing. -/
theorem C6_pull_not_found_empty (codec : LabelsJsonCodec) (C : BlockCipherModel)
    (env : PullEnv) (force : Bool) (ha : env.authenticated = true)
    (hav : env.dropboxAvailable = true)
    (hnf : env.download = .apiErrorNotFoundPath) :
    pull_labels codec C env force = (.ok [], []) := by
  simp [pull_labels, ha, hav, hnf]

/-- Witness for C6 on a concrete first-sync context. -/
theorem C6_pull_not_found_empty_witness :
    wEnvNotFound.authenticated = true ∧ wEnvNotFound.dropboxAvailable = true ∧
    wEnvNotFound.download = .apiErrorNotFoundPath ∧
    pull_labels wCodecRemote witnessCipher wEnvNotFound false = (.ok [], []) :=
  ⟨rfl, rfl, rfl,
    C6_pull_not_found_empty wCodecRemote witnessCipher wEnvNotFound false rfl rfl rfl⟩

/- ## C8: token expiry margin -/

/-- C8: a token with an `expires_at` field is reported expired exactly when
`now > expires_at - 300`; in particular `expires_at = now + 200` is expired
and `expires_at = now + 400` is not. -/
theorem C8_token_expiry_margin (now ea : Int) (ei : Option Int) :
    is_token_expired now ⟨ei, some ea⟩ = decide (now > ea - 300) ∧
    is_token_expired now ⟨ei, some (now + 200)⟩ = true ∧
    is_token_expired now ⟨ei, some (now + 400)⟩ = false := by
  refine ⟨rfl, ?_, ?_⟩
  · simp only [is_token_expired, Option.getD, decide_eq_true_eq]
    omega
  · simp only [is_token_expired, Option.getD, decide_eq_false_iff_not]
    omega

/- ## C5: unpack rejects truncated envelopes and foreign versions -/

/-- C5: `unpack_labels` fails on an envelope shorter than 28 bytes, fails
with the unsupported-version error whenever the decrypted payload's declared
version differs from the supported one, and only succeeds on payloads
declaring exactly the supported version — it never accepts another one. -/
theorem C5_unpack_version_discipline (codec : LabelsJsonCodec) (C : BlockCipherModel)
    (data key : List Nat) :
    (data.length < 28 → unpack_labels codec C data key = .error .tooShort) ∧
    (∀ pt payload, 28 ≤ data.length →
      decrypt C key ((data.drop 12).take (data.length - 28)) (data.take 12)
        (data.drop (data.length - 16)) none = .ok pt →
      codec.dec pt = some payload → payload.version ≠ some 1 →
      unpack_labels codec C data key = .error .unsupportedVersion) ∧
    (∀ labels, unpack_labels codec C data key = .ok labels →
      ∃ pt payload, codec.dec pt = some payload ∧ payload.version = some 1 ∧
        labels = payload.labels) := by
  refine ⟨?_, ?_, ?_⟩
  · intro h
    unfold unpack_labels
    rw [if_pos (show data.length < NONCE_SIZE + TAG_SIZE from h)]
  · intro pt payload hlen hdec hjson hver
    unfold unpack_labels
    rw [if_neg (show ¬ data.length < NONCE_SIZE + TAG_SIZE by
      simp only [NONCE_SIZE, TAG_SIZE]; omega)]
    simp only [NONCE_SIZE, TAG_SIZE, Nat.reduceAdd]
    rw [show (28 : Nat) = 12 + 16 from rfl] at hdec
    simp only [hdec, hjson]
    rw [if_pos (show payload.version ≠ some VERSION from hver)]
  · intro labels h
    unfold unpack_labels at h
    split at h
    · simp at h
    · simp only [] at h
      split at h
      · simp at h
      · rename_i pt hdec
        split at h
        · simp at h
        · rename_i payload hjson
          split at h
          · simp at h
          · rename_i hver
            simp only [Except.ok.injEq] at h
            exact ⟨pt, payload, hjson, by simpa [VERSION] using hver, h.symm⟩

/-- Witness for C5: a 5-byte envelope is rejected as truncated, and a 28-byte
envelope whose payload declares version 2 is rejected as unsupported. -/
theorem C5_unpack_version_discipline_witness :
    ((([0, 1, 2, 3, 4] : List Nat).length < 28) ∧
      unpack_labels wCodecV2 witnessCipher [0, 1, 2, 3, 4] wKey = .error .tooShort) ∧
    ((28 ≤ wData.length) ∧
      decrypt witnessCipher wKey ((wData.drop 12).take (wData.length - 28)) (wData.take 12)
        (wData.drop (wData.length - 16)) none = .ok [] ∧
      wCodecV2.dec [] = some ⟨some 2, []⟩ ∧
      (⟨some 2, []⟩ : JsonPayload).version ≠ some 1 ∧
      unpack_labels wCodecV2 witnessCipher wData wKey = .error .unsupportedVersion) :=
  ⟨⟨by decide, (C5_unpack_version_discipline wCodecV2 witnessCipher [0, 1, 2, 3, 4] wKey).1
      (by decide)⟩,
   ⟨by decide, by decide, rfl, by decide,
    (C5_unpack_version_discipline wCodecV2 witnessCipher wData wKey).2.1 [] ⟨some 2, []⟩
      (by decide) (by decide) rfl (by decide)⟩⟩

/- ## C7: PKCE parameter shape -/

/-- C7: the code verifier is the unpadded base64url encoding of the 32 random
bytes, hence has length 43 (inside [43,128]); the code challenge is the
unpadded base64url encoding of the SHA-256 of the UTF-8 verifier; and neither
string contains `+`, `/` or `=`. -/
theorem C7_pkce_params_shape (rb : List Nat) (h : rb.length = 32) :
    (generate_pkce_params rb).1 = rstripEq (b64encode rb) ∧
    (generate_pkce_params rb).1.length = 43 ∧
    43 ≤ (generate_pkce_params rb).1.length ∧ (generate_pkce_params rb).1.length ≤ 128 ∧
    (generate_pkce_params rb).2
      = rstripEq (b64encode (sha256 (utf8Chars (generate_pkce_params rb).1))) ∧
    (∀ c ∈ (generate_pkce_params rb).1, c ≠ '+' ∧ c ≠ '/' ∧ c ≠ '=') ∧
    (∀ c ∈ (generate_pkce_params rb).2, c ≠ '+' ∧ c ≠ '/' ∧ c ≠ '=') := by
  have hv : (generate_pkce_params rb).1 = rstripEq (b64encode rb) := rfl
  have hc2 : (generate_pkce_params rb).2
      = rstripEq (b64encode (sha256 (utf8Chars (rstripEq (b64encode rb))))) := rfl
  have h1 : (generate_pkce_params rb).1 = b64encodeNP rb :=
    hv.trans (rstripEq_b64encode rb)
  have h2 : (generate_pkce_params rb).2
      = b64encodeNP (sha256 (utf8Chars (rstripEq (b64encode rb)))) :=
    hc2.trans (rstripEq_b64encode _)
  have hlen : (b64encodeNP rb).length = 43 := by rw [b64encodeNP_length, h]
  refine ⟨hv, ?_, ?_, ?_, ?_, ?_, ?_⟩
  · rw [h1, hlen]
  · rw [h1, hlen]
  · rw [h1, hlen]
    norm_num
  · rw [hc2, hv]
  · intro c hc
    rw [h1] at hc
    exact b64alphabet_no_reserved c (b64encodeNP_mem rb c hc)
  · intro c hc
    rw [h2] at hc
    exact b64alphabet_no_reserved c (b64encodeNP_mem _ c hc)

/-- Witness for C7 at a concrete 32-byte random input. -/
theorem C7_pkce_params_shape_witness :
    (List.replicate 32 0 : List Nat).length = 32 ∧
    (generate_pkce_params (List.replicate 32 0)).1.length = 43 ∧
    (∀ c ∈ (generate_pkce_params (List.replicate 32 0)).2, c ≠ '+' ∧ c ≠ '/' ∧ c ≠ '=') :=
  ⟨by decide,
   (C7_pkce_params_shape (List.replicate 32 0) (by decide)).2.1,
   (C7_pkce_params_shape (List.replicate 32 0) (by decide)).2.2.2.2.2.2⟩

/- ## C9: single-label incremental sync -/

/-- C9: a single-label sync downloads the current remote set, upserts the
key when the new label is non-empty or removes it when empty, and uploads
exactly one envelope packing the entire resulting set. -/
theorem C9_sync_label_whole_set (codec : LabelsJsonCodec) (C : BlockCipherModel)
    (env : PullEnv) (item label : String) (nonce : List Nat)
    (labels W : List (String × String)) (d : List Nat)
    (ha : env.authenticated = true)
    (hpull : pull_labels codec C env false = (.ok labels, W))
    (hpack : pack_labels codec C
        (if label ≠ "" then assocSet labels item label else assocErase labels item)
        env.encryptionKey nonce = .ok d) :
    sync_label codec C env item label nonce = ([d], W) := by
  unfold sync_label
  rw [if_neg (show ¬¬(env.authenticated = true) from fun hn => hn ha), hpull]
  simp only []
  rw [hpack]

/-- Witness for C9: adding label `4` for key `d` to the concrete remote set
uploads one envelope of the updated whole set. -/
theorem C9_sync_label_whole_set_witness :
    wEnv.authenticated = true ∧
    pull_labels wCodecRemote witnessCipher wEnv false
      = (.ok [("a", "9"), ("c", "3")], [("c", "3")]) ∧
    pack_labels wCodecRemote witnessCipher
      (if ("4" : String) ≠ "" then assocSet [("a", "9"), ("c", "3")] "d" "4"
       else assocErase [("a", "9"), ("c", "3")] "d") wEnv.encryptionKey wNonce = .ok wData ∧
    sync_label wCodecRemote witnessCipher wEnv "d" "4" wNonce = ([wData], [("c", "3")]) :=
  ⟨rfl, by decide, by decide,
   C9_sync_label_whole_set wCodecRemote witnessCipher wEnv "d" "4" wNonce
     [("a", "9"), ("c", "3")] [("c", "3")] wData rfl (by decide) (by decide)⟩

/- ## C10: a non-forced pull never overwrites a truthy local label -/

/-- Every write performed by a pull passes the `force or falsy-local` test. -/
theorem pull_writes_cond (codec : LabelsJsonCodec) (C : BlockCipherModel)
    (env : PullEnv) (force : Bool) :
    ∀ kv ∈ (pull_labels codec C env force).2,
      (force || ! labelTruthy (env.localLabel kv.1)) = true := by
  intro kv hkv
  unfold pull_labels at hkv
  split at hkv
  · simp at hkv
  · split at hkv
    · simp at hkv
    · split at hkv
      · simp at hkv
      · simp at hkv
      · rename_i encrypted_data
        split at hkv
        · simp at hkv
        · rename_i ls hls
          exact (List.mem_filter.mp
            (show kv ∈ ls.filter (fun kv => force || ! labelTruthy (env.localLabel kv.1))
              from hkv)).2

/-- C10: a pull without `force` writes only keys whose local label is absent
or empty, so every previously set non-empty local label survives unchanged. -/
theorem C10_pull_preserves_local (codec : LabelsJsonCodec) (C : BlockCipherModel)
    (env : PullEnv) :
    (∀ kv ∈ (pull_labels codec C env false).2,
      labelTruthy (env.localLabel kv.1) = false) ∧
    (∀ k s, env.localLabel k = some s → s ≠ "" →
      applyWrites env.localLabel (pull_labels codec C env false).2 k = some s) := by
  have hcond := pull_writes_cond codec C env false
  constructor
  · intro kv hkv
    have := hcond kv hkv
    simpa using this
  · intro k s hks hs
    have hnot : ∀ kv ∈ (pull_labels codec C env false).2, kv.1 ≠ k := by
      intro kv hkv hkk
      have := hcond kv hkv
      rw [hkk, hks] at this
      simp [labelTruthy, hs] at this
    rw [applyWrites_not_mem _ _ _ hnot, hks]

/-- Witness for C10: the concrete local label `a ↦ "1"` survives the pull of
a remote set containing `a ↦ "9"`. -/
theorem C10_pull_preserves_local_witness :
    wEnv.localLabel "a" = some "1" ∧ ("1" : String) ≠ "" ∧
    applyWrites wEnv.localLabel (pull_labels wCodecRemote witnessCipher wEnv false).2 "a"
      = some "1" :=
  ⟨rfl, by decide,
   (C10_pull_preserves_local wCodecRemote witnessCipher wEnv).2 "a" "1" rfl (by decide)⟩

/- ## C2: conflict handling of a diverged pull -/

/-- Counterexample to C2: at the claim's own scenario — local
`{a:"1", b:"2"}`, remote `{a:"9", c:"3"}` — the sync engine keeps the local
value `"1"` for the conflicting key `a` (no timestamps are consulted
anywhere), so the merge does not produce the claimed `{a:"9", b:"2", c:"3"}`
and the downloaded set is returned as-is. -/
theorem C2_counterexample :
    pull_labels wCodecRemote witnessCipher wEnv false
      = (.ok [("a", "9"), ("c", "3")], [("c", "3")]) ∧
    applyWrites wLocal (pull_labels wCodecRemote witnessCipher wEnv false).2 "a"
      = some "1" ∧
    (some ("1" : String) ≠ some "9") ∧
    (pull_labels wCodecRemote witnessCipher wEnv false).1
      ≠ .ok [("a", "9"), ("b", "2"), ("c", "3")] :=
  ⟨by decide, by decide, by decide, by decide⟩

/-- C2 (amended): when local and remote have diverged, the non-forced pull
merges by local-wins-if-non-empty — for keys present on both sides the
existing non-empty local value is kept, keys with absent or empty local
labels take the remote value, and keys the remote set does not mention are
untouched; no timestamps take part. -/
theorem C2_merge_local_wins (codec : LabelsJsonCodec) (C : BlockCipherModel)
    (env : PullEnv) (labels W : List (String × String))
    (h : pull_labels codec C env false = (.ok labels, W))
    (hnd : (labels.map Prod.fst).Nodup) :
    (∀ k, labelTruthy (env.localLabel k) = true →
      applyWrites env.localLabel W k = env.localLabel k) ∧
    (∀ k v, (k, v) ∈ labels → labelTruthy (env.localLabel k) = false →
      applyWrites env.localLabel W k = some v) ∧
    (∀ k, k ∉ labels.map Prod.fst →
      applyWrites env.localLabel W k = env.localLabel k) := by
  have hW : W = labels.filter (fun kv => false || ! labelTruthy (env.localLabel kv.1)) :=
    pull_ok_writes codec C env false labels W h
  refine ⟨?_, ?_, ?_⟩
  · intro k hk
    apply applyWrites_not_mem
    intro kv hkv hkk
    rw [hW] at hkv
    have hc := List.of_mem_filter hkv
    rw [hkk, hk] at hc
    simp at hc
  · intro k v hmem hfal
    apply applyWrites_lookup
    · rw [hW]
      exact List.Nodup.sublist (List.Sublist.map _ (List.filter_sublist _)) hnd
    · rw [hW]
      exact List.mem_filter.mpr ⟨hmem, by simp [hfal]⟩
  · intro k hk
    apply applyWrites_not_mem
    intro kv hkv hkk
    rw [hW] at hkv
    exact hk (List.mem_map.mpr ⟨kv, List.mem_of_mem_filter hkv, hkk⟩)

/-- Witness for the amended C2 at the claim's scenario. -/
theorem C2_merge_local_wins_witness :
    pull_labels wCodecRemote witnessCipher wEnv false
      = (.ok [("a", "9"), ("c", "3")], [("c", "3")]) ∧
    (([("a", "9"), ("c", "3")].map Prod.fst).Nodup) ∧
    applyWrites wEnv.localLabel [("c", "3")] "a" = wEnv.localLabel "a" ∧
    applyWrites wEnv.localLabel [("c", "3")] "c" = some "3" ∧
    applyWrites wEnv.localLabel [("c", "3")] "b" = wEnv.localLabel "b" :=
  ⟨by decide, by decide,
   (C2_merge_local_wins wCodecRemote witnessCipher wEnv [("a", "9"), ("c", "3")]
      [("c", "3")] (by decide) (by decide)).1 "a" (by decide),
   (C2_merge_local_wins wCodecRemote witnessCipher wEnv [("a", "9"), ("c", "3")]
      [("c", "3")] (by decide) (by decide)).2.1 "c" "3" (by decide) (by decide),
   (C2_merge_local_wins wCodecRemote witnessCipher wEnv [("a", "9"), ("c", "3")]
      [("c", "3")] (by decide) (by decide)).2.2 "b" (by decide)⟩

/- ## SHA-256 sanity vector -/

set_option maxRecDepth 100000 in
/-- The SHA-256 implementation embedded here reproduces the NIST test vector
for `"abc"`. -/
theorem sha256_abc_vector :
    sha256 [0x61, 0x62, 0x63]
      = [0xba, 0x78, 0x16, 0xbf, 0x8f, 0x01, 0xcf, 0xea,
         0x41, 0x41, 0x40, 0xde, 0x5d, 0xae, 0x22, 0x23,
         0xb0, 0x03, 0x61, 0xa3, 0x96, 0x17, 0x7a, 0x9c,
         0xb4, 0x10, 0xff, 0x61, 0xf2, 0x00, 0x15, 0xad] := by decide

end DropboxLabels
